import Mathlib

/-!
Verification of the vireoSNP variational-Bayes demultiplexing core
(`vireoSNP/utils/vireo_model.py` and `vireoSNP/utils/vcf_utils.py`)
against its natural-language specification.

The Python source is shallowly embedded below: machine floats are modelled
by exact rationals (`ℚ`), except where the code takes square roots, which
are modelled over `ℝ`; numpy tensors indexed by natural numbers become
functions `ℕ → ⋯ → ℚ` together with the relevant extents; the numeric
engines that live in `vireo_base.py` (a file not in scope here) are either
modelled from the specification - marked `Modelled from the spec:` - or
kept as opaque parameters when only the control flow around them matters.
-/

namespace Vireo

/-! ### The VB fixed-point loop of `vireo_core` (vireo_model.py lines 142-157)

The loop body computes a new state and one evidence-lower-bound value per
iteration via `update_VB`; the loop control compares consecutive lower
bounds.  The state update is abstracted into a `step : S → S × ℚ`
function (the numeric engines live in `vireo_base.py`); the control
flow below is a line-by-line embedding of the Python loop. -/

/-- Non-fatal convergence anomalies printed by `vireo_core`
(`"Warning: Lower bound decreases!"` and `"Warning: VB did not converge!"`). -/
inductive VireoWarning where
  | lbDecrease : VireoWarning
  | notConverged : VireoWarning
deriving DecidableEq, Repr

/-- One iteration's warning/break decision, embedding vireo_model.py lines
149-157: warnings are emitted only when `verbose` holds, and the `break`
is taken only in the final `elif` branch. Returns (printed warnings, break?). -/
def vb_step_flags (min_iter max_iter : ℕ) (eps : ℚ) (verbose : Bool)
    (it : ℕ) (prev cur : ℚ) : List VireoWarning × Bool :=
  if min_iter < it then
    if cur < prev then ((if verbose then [VireoWarning.lbDecrease] else []), false)
    else if it = max_iter - 1 then ((if verbose then [VireoWarning.notConverged] else []), false)
    else if cur - prev < eps then ([], true)
    else ([], false)
  else ([], false)

/-- The `for it in range(max_iter)` loop of `vireo_core`, run with `fuel`
iterations remaining, current iteration index `it`, current state `s` and
previous iteration's lower bound `prev`.  Returns the final state, the last
executed iteration index (Python's `it` after the loop) and the warnings
printed. -/
def vb_loop {S : Type} (step : S → S × ℚ) (min_iter max_iter : ℕ) (eps : ℚ)
    (verbose : Bool) : ℕ → ℕ → S → ℚ → S × ℕ × List VireoWarning
  | 0, it, s, _ => (s, it - 1, [])
  | fuel+1, it, s, prev =>
    let sc := step s
    let wb := vb_step_flags min_iter max_iter eps verbose it prev sc.2
    if wb.2 then (sc.1, it, wb.1)
    else
      let r := vb_loop step min_iter max_iter eps verbose fuel (it+1) sc.1 sc.2
      (r.1, r.2.1, wb.1 ++ r.2.2)

/-- The whole loop of `vireo_core` lines 143-157: `max_iter` iterations of
fuel starting at `it = 0`; `prev` is initialized to `0` mirroring
`LB = np.zeros(max_iter)` (it is never compared before iteration
`min_iter + 1 ≥ 1` anyway). -/
def vireo_loop {S : Type} (step : S → S × ℚ) (s0 : S) (min_iter max_iter : ℕ)
    (eps : ℚ) (verbose : Bool) : S × ℕ × List VireoWarning :=
  vb_loop step min_iter max_iter eps verbose max_iter 0 s0 0

/-- A run of the loop whose successive lower bounds are the abstract
sequence `lb 0, lb 1, …` (the state is just the iteration counter).  Any
concrete run of `vireo_core` induces such a sequence, so loop-control
properties are proved against this instance. -/
def lbStep (lb : ℕ → ℚ) : ℕ → ℕ × ℚ := fun n => (n + 1, lb n)

/-- Loop control of `vireo_core` as a function of the lower-bound sequence. -/
def lb_loop (lb : ℕ → ℚ) (min_iter max_iter : ℕ) (eps : ℚ) (verbose : Bool) :
    ℕ × ℕ × List VireoWarning :=
  vireo_loop (lbStep lb) 0 min_iter max_iter eps verbose

/-- The exact condition under which the Python loop takes its `break`
(the final `elif` at line 156): past `min_iter`, no decrease, not the last
iteration, and improvement strictly below `epsilon_conv`. -/
def break_cond (min_iter max_iter : ℕ) (eps : ℚ) (lb : ℕ → ℚ) (it : ℕ) : Prop :=
  min_iter < it ∧ ¬ lb it < lb (it - 1) ∧ it ≠ max_iter - 1 ∧ lb it - lb (it - 1) < eps

instance (min_iter max_iter : ℕ) (eps : ℚ) (lb : ℕ → ℚ) (it : ℕ) :
    Decidable (break_cond min_iter max_iter eps lb it) :=
  inferInstanceAs (Decidable (_ ∧ _ ∧ _ ∧ _))

lemma vb_loop_zero {S : Type} (step : S → S × ℚ) (m M : ℕ) (eps : ℚ) (v : Bool)
    (it : ℕ) (s : S) (prev : ℚ) :
    vb_loop step m M eps v 0 it s prev = (s, it - 1, []) := rfl

lemma vb_loop_succ {S : Type} (step : S → S × ℚ) (m M : ℕ) (eps : ℚ) (v : Bool)
    (fuel it : ℕ) (s : S) (prev : ℚ) :
    vb_loop step m M eps v (fuel+1) it s prev =
      if (vb_step_flags m M eps v it prev (step s).2).2 then
        ((step s).1, it, (vb_step_flags m M eps v it prev (step s).2).1)
      else
        ((vb_loop step m M eps v fuel (it+1) (step s).1 (step s).2).1,
         (vb_loop step m M eps v fuel (it+1) (step s).1 (step s).2).2.1,
         (vb_step_flags m M eps v it prev (step s).2).1 ++
           (vb_loop step m M eps v fuel (it+1) (step s).1 (step s).2).2.2) := rfl

lemma vb_step_flags_snd_iff (m M : ℕ) (eps : ℚ) (v : Bool) (it : ℕ) (prev cur : ℚ) :
    (vb_step_flags m M eps v it prev cur).2 = true ↔
      (m < it ∧ ¬ cur < prev ∧ it ≠ M - 1 ∧ cur - prev < eps) := by
  unfold vb_step_flags
  split_ifs with h1 h2 h3 h4 <;> simp_all

lemma vb_step_flags_fst_of_not_verbose (m M : ℕ) (eps : ℚ) (it : ℕ) (prev cur : ℚ) :
    (vb_step_flags m M eps false it prev cur).1 = [] := by
  unfold vb_step_flags
  split_ifs <;> simp_all

/-- The last executed iteration index never exceeds `it₀ + fuel - 1`. -/
lemma vb_loop_stop_le {S : Type} (step : S → S × ℚ) (m M : ℕ) (eps : ℚ) (v : Bool) :
    ∀ (fuel it : ℕ) (s : S) (prev : ℚ),
      (vb_loop step m M eps v fuel it s prev).2.1 ≤ it + fuel - 1 := by
  intro fuel
  induction fuel with
  | zero => intro it s prev; simp [vb_loop_zero]
  | succ fuel ih =>
    intro it s prev
    rw [vb_loop_succ]
    split_ifs with h
    · show it ≤ it + (fuel + 1) - 1
      omega
    · show (vb_loop step m M eps v fuel (it+1) (step s).1 (step s).2).2.1 ≤ it + (fuel + 1) - 1
      have := ih (it+1) (step s).1 (step s).2
      omega

/-- If the break condition first holds at iteration `k` (within fuel),
the loop stops exactly at `k`.  The hypothesis `hprev` records that the
`prev` argument carries `lb (it₀ - 1)` whenever it can be consulted. -/
lemma vb_loop_stop_eq (lb : ℕ → ℚ) (m M : ℕ) (eps : ℚ) (v : Bool) :
    ∀ (fuel it0 : ℕ) (prev : ℚ), (m < it0 → prev = lb (it0 - 1)) →
    ∀ k, it0 ≤ k → k < it0 + fuel → break_cond m M eps lb k →
    (∀ j, it0 ≤ j → j < k → ¬ break_cond m M eps lb j) →
    (vb_loop (lbStep lb) m M eps v fuel it0 it0 prev).2.1 = k := by
  intro fuel
  induction fuel with
  | zero => intro it0 prev _ k h1 h2 _ _; omega
  | succ fuel ih =>
    intro it0 prev hprev k hk1 hk2 hbc hfirst
    rw [vb_loop_succ]
    have hstep2 : (lbStep lb it0).2 = lb it0 := rfl
    rcases Nat.eq_or_lt_of_le hk1 with heq | hlt
    · -- break happens right here
      subst heq
      have hb : (vb_step_flags m M eps v it0 prev (lbStep lb it0).2).2 = true := by
        rw [vb_step_flags_snd_iff, hstep2]
        obtain ⟨hbc1, hbc2, hbc3, hbc4⟩ := hbc
        rw [hprev hbc1]
        exact ⟨hbc1, hbc2, hbc3, hbc4⟩
      rw [if_pos hb]
    · -- no break here: the condition fails at it0
      have hnb : ¬ (vb_step_flags m M eps v it0 prev (lbStep lb it0).2).2 = true := by
        intro h
        rw [vb_step_flags_snd_iff, hstep2] at h
        obtain ⟨h1, h2, h3, h4⟩ := h
        rw [hprev h1] at h2 h4
        exact hfirst it0 le_rfl hlt ⟨h1, h2, h3, h4⟩
      rw [if_neg hnb]
      show (vb_loop (lbStep lb) m M eps v fuel (it0+1) (lbStep lb it0).1 (lbStep lb it0).2).2.1 = k
      have hres := ih (it0+1) (lb it0) (fun _ => by simp) k hlt (by omega) hbc
        (fun j hj1 hj2 => hfirst j (by omega) hj2)
      exact hres

/-- If iteration `it` is executed (it is at most the final iteration index)
and the step at `it` prints warning `w`, then `w` is among the warnings of
the whole loop. -/
lemma vb_loop_warn_mem (lb : ℕ → ℚ) (m M : ℕ) (eps : ℚ) (w : VireoWarning) :
    ∀ (fuel it0 : ℕ) (prev : ℚ), (m < it0 → prev = lb (it0 - 1)) →
    ∀ it, it0 ≤ it → it < it0 + fuel →
    it ≤ (vb_loop (lbStep lb) m M eps true fuel it0 it0 prev).2.1 →
    w ∈ (vb_step_flags m M eps true it (lb (it - 1)) (lb it)).1 →
    w ∈ (vb_loop (lbStep lb) m M eps true fuel it0 it0 prev).2.2 := by
  intro fuel
  induction fuel with
  | zero => intro it0 prev _ it h1 h2 _ _; omega
  | succ fuel ih =>
    intro it0 prev hprev it hit1 hit2 hstop hw
    have hstep2 : (lbStep lb it0).2 = lb it0 := rfl
    rw [vb_loop_succ] at hstop ⊢
    by_cases hb : (vb_step_flags m M eps true it0 prev (lbStep lb it0).2).2 = true
    · rw [if_pos hb] at hstop ⊢
      -- the loop stops at it0, so it = it0 and the step warnings are the result
      have hstop' : it ≤ it0 := hstop
      have heq : it0 = it := le_antisymm hit1 hstop'
      subst heq
      have hm : m < it0 := by
        have := (vb_step_flags_snd_iff m M eps true it0 prev (lbStep lb it0).2).mp hb
        exact this.1
      show w ∈ (vb_step_flags m M eps true it0 prev (lbStep lb it0).2).1
      rw [hstep2, hprev hm]
      exact hw
    · rw [if_neg hb] at hstop ⊢
      have hstop' : it ≤
          (vb_loop (lbStep lb) m M eps true fuel (it0+1) (lbStep lb it0).1 (lbStep lb it0).2).2.1 :=
        hstop
      show w ∈ (vb_step_flags m M eps true it0 prev (lbStep lb it0).2).1 ++
        (vb_loop (lbStep lb) m M eps true fuel (it0+1) (lbStep lb it0).1 (lbStep lb it0).2).2.2
      rcases Nat.eq_or_lt_of_le hit1 with heq | hlt
      · -- warning printed at this very iteration
        subst heq
        apply List.mem_append_left
        by_cases hm : m < it0
        · rw [hstep2, hprev hm]
          exact hw
        · -- no warnings possible when m < it fails
          exfalso
          unfold vb_step_flags at hw
          rw [if_neg hm] at hw
          simp at hw
      · apply List.mem_append_right
        exact ih (it0+1) (lb it0) (fun _ => by simp) it hlt (by omega) hstop' hw

/-- With `verbose = False` the loop never records a warning, whatever the
step function. -/
lemma vb_loop_no_warn {S : Type} (step : S → S × ℚ) (m M : ℕ) (eps : ℚ) :
    ∀ (fuel it : ℕ) (s : S) (prev : ℚ),
      (vb_loop step m M eps false fuel it s prev).2.2 = [] := by
  intro fuel
  induction fuel with
  | zero => intro it s prev; rfl
  | succ fuel ih =>
    intro it s prev
    rw [vb_loop_succ]
    split_ifs with h
    · exact vb_step_flags_fst_of_not_verbose m M eps it prev (step s).2
    · simp only
      rw [vb_step_flags_fst_of_not_verbose, ih]
      rfl

/-- Any invariant preserved by the step function holds for the loop's
final state. -/
lemma vb_loop_state_inv {S : Type} (step : S → S × ℚ) (m M : ℕ) (eps : ℚ)
    (v : Bool) (P : S → Prop) (hstep : ∀ s, P s → P (step s).1) :
    ∀ (fuel it : ℕ) (s : S) (prev : ℚ), P s →
      P (vb_loop step m M eps v fuel it s prev).1 := by
  intro fuel
  induction fuel with
  | zero => intro it s prev hs; exact hs
  | succ fuel ih =>
    intro it s prev hs
    rw [vb_loop_succ]
    split_ifs with h
    · exact hstep s hs
    · exact ih (it+1) (step s).1 (step s).2 (hstep s hs)

/-! ### Claims C1 and C2: stopping rule and warnings of the loop -/

/-- A lower-bound sequence exercising the decrease branch: 0, -1, 10, 10, … -/
def lbC1 : ℕ → ℚ := fun n => if n = 0 then 0 else if n = 1 then -1 else 10

/-- Claim C1 is false as stated: with `min_iter = 0`, `max_iter = 3` and
`epsilon_conv = 1/100`, the improvement at iteration 1 is negative, hence
below the tolerance, yet the loop does not stop there: it runs on to
iteration 2.  An ELBO decrease does not stop the loop. -/
theorem C1_counterexample :
    (lbC1 1 - lbC1 0 < 1/100 ∧ 0 < 1) ∧
      (lb_loop lbC1 0 3 (1/100) false).2.1 = 2 ∧ (2 : ℕ) ≠ 1 := by
  refine ⟨⟨by norm_num [lbC1], by norm_num⟩, ?_, by norm_num⟩
  show (vb_loop (lbStep lbC1) 0 3 (1/100) false (2+1) 0 0 0).2.1 = 2
  rw [vb_loop_succ]
  have f0 : vb_step_flags 0 3 (1/100) false 0 0 ((lbStep lbC1 0).2) = ([], false) := by
    norm_num [vb_step_flags, lbStep, lbC1]
  rw [f0, if_neg (by simp)]
  show (vb_loop (lbStep lbC1) 0 3 (1/100) false (1+1) 1 1 (lbC1 0)).2.1 = 2
  rw [vb_loop_succ]
  have f1 : vb_step_flags 0 3 (1/100) false 1 (lbC1 0) ((lbStep lbC1 1).2) = ([], false) := by
    norm_num [vb_step_flags, lbStep, lbC1]
  rw [f1, if_neg (by simp)]
  show (vb_loop (lbStep lbC1) 0 3 (1/100) false (0+1) 2 2 (lbC1 1)).2.1 = 2
  rw [vb_loop_succ]
  have f2 : vb_step_flags 0 3 (1/100) false 2 (lbC1 1) ((lbStep lbC1 2).2) = ([], false) := by
    norm_num [vb_step_flags, lbStep, lbC1]
  rw [f2, if_neg (by simp)]
  rfl

/-- Claim C1, amended: once the iteration index exceeds `min_iter`, the
loop stops at the first iteration whose ELBO change is *non-negative* and
below `epsilon_conv`, provided that iteration is not the last one
(`max_iter - 1`); an iteration whose ELBO strictly decreases never takes
the break, whatever the size of the decrease. -/
theorem C1_amended (lb : ℕ → ℚ) (min_iter max_iter : ℕ) (eps : ℚ) (v : Bool)
    (k : ℕ) (hbc : break_cond min_iter max_iter eps lb k)
    (hfirst : ∀ j, j < k → ¬ break_cond min_iter max_iter eps lb j)
    (hkM : k < max_iter) :
    (lb_loop lb min_iter max_iter eps v).2.1 = k :=
  vb_loop_stop_eq lb min_iter max_iter eps v max_iter 0 0
    (fun h => absurd h (Nat.not_lt_zero min_iter))
    k (Nat.zero_le k) (by omega) hbc (fun j _ hj => hfirst j hj)

/-- A slowly improving sequence: improvements of 1/1000 every step. -/
def lbW1 : ℕ → ℚ := fun n => (n : ℚ) / 1000

/-- Witness for `C1_amended`: with `min_iter = 1`, `max_iter = 10`,
`epsilon_conv = 1/100`, the sequence `n/1000` makes the loop break at
iteration 2, the first past `min_iter` with sub-tolerance improvement. -/
theorem C1_witness : (lb_loop lbW1 1 10 (1/100) false).2.1 = 2 :=
  C1_amended lbW1 1 10 (1/100) false 2 (by norm_num [break_cond, lbW1])
    (fun j hj => by interval_cases j <;> norm_num [break_cond, lbW1]) (by norm_num)

/-- A sequence that decreases at iteration 2 (past `min_iter = 1`):
0, 0, -1, 10, … -/
def lbC2 : ℕ → ℚ := fun n => if n ≤ 1 then 0 else if n = 2 then -1 else 10

/-- Claim C2 is false as stated: with the default `verbose = False`, an
ELBO decrease after `min_iter` produces no warning at all — the warning
list of the run is empty, so the anomaly is silently ignored in this
configuration. -/
theorem C2_counterexample :
    (lbC2 2 < lbC2 1 ∧ 1 < 2) ∧ (lb_loop lbC2 1 4 (1/100) false).2.2 = [] :=
  ⟨⟨by norm_num [lbC2], by norm_num⟩,
   vb_loop_no_warn (lbStep lbC2) 1 4 (1/100) 4 0 0 0⟩

/-- Claim C2, amended: warnings are gated by `verbose`.  With
`verbose = True`, an ELBO decrease at an executed iteration past
`min_iter` yields the decrease warning, and reaching the final iteration
`max_iter - 1` past `min_iter` without a decrease there yields the
non-convergence warning; with `verbose = False` (the default) no warning
is ever produced. -/
theorem C2_amended (lb : ℕ → ℚ) (min_iter max_iter : ℕ) (eps : ℚ) (it : ℕ) :
    (min_iter < it → it ≤ (lb_loop lb min_iter max_iter eps true).2.1 →
      lb it < lb (it - 1) →
      VireoWarning.lbDecrease ∈ (lb_loop lb min_iter max_iter eps true).2.2) ∧
    (min_iter < max_iter - 1 →
      max_iter - 1 ≤ (lb_loop lb min_iter max_iter eps true).2.1 →
      ¬ lb (max_iter - 1) < lb (max_iter - 1 - 1) →
      VireoWarning.notConverged ∈ (lb_loop lb min_iter max_iter eps true).2.2) ∧
    (lb_loop lb min_iter max_iter eps false).2.2 = [] := by
  refine ⟨?_, ?_, vb_loop_no_warn (lbStep lb) min_iter max_iter eps max_iter 0 0 0⟩
  · intro h1 h3 h2
    have hle := vb_loop_stop_le (lbStep lb) min_iter max_iter eps true max_iter 0 0 0
    have hitM : it < max_iter := by
      have : it ≤ 0 + max_iter - 1 := le_trans h3 hle
      omega
    apply vb_loop_warn_mem lb min_iter max_iter eps VireoWarning.lbDecrease max_iter 0 0
      (fun h => absurd h (Nat.not_lt_zero min_iter)) it (Nat.zero_le it) (by omega) h3
    unfold vb_step_flags
    rw [if_pos h1, if_pos h2]
    simp
  · intro h1 h3 h2
    have hle := vb_loop_stop_le (lbStep lb) min_iter max_iter eps true max_iter 0 0 0
    have hitM : max_iter - 1 < max_iter := by omega
    apply vb_loop_warn_mem lb min_iter max_iter eps VireoWarning.notConverged max_iter 0 0
      (fun h => absurd h (Nat.not_lt_zero min_iter)) (max_iter - 1)
      (Nat.zero_le _) (by omega) h3
    unfold vb_step_flags
    rw [if_pos h1, if_neg h2, if_pos rfl]
    simp

/-- The run of the loop on `lbC2` with `verbose = True` executes all four
iterations and ends at iteration 3. -/
lemma lbC2_stop : (lb_loop lbC2 1 4 (1/100) true).2.1 = 3 := by
  show (vb_loop (lbStep lbC2) 1 4 (1/100) true (3+1) 0 0 0).2.1 = 3
  rw [vb_loop_succ]
  have f0 : vb_step_flags 1 4 (1/100) true 0 0 ((lbStep lbC2 0).2) = ([], false) := by
    norm_num [vb_step_flags, lbStep, lbC2]
  rw [f0, if_neg (by simp)]
  show (vb_loop (lbStep lbC2) 1 4 (1/100) true (2+1) 1 1 (lbC2 0)).2.1 = 3
  rw [vb_loop_succ]
  have f1 : vb_step_flags 1 4 (1/100) true 1 (lbC2 0) ((lbStep lbC2 1).2) = ([], false) := by
    norm_num [vb_step_flags, lbStep, lbC2]
  rw [f1, if_neg (by simp)]
  show (vb_loop (lbStep lbC2) 1 4 (1/100) true (1+1) 2 2 (lbC2 1)).2.1 = 3
  rw [vb_loop_succ]
  have f2 : vb_step_flags 1 4 (1/100) true 2 (lbC2 1) ((lbStep lbC2 2).2) =
      ([VireoWarning.lbDecrease], false) := by
    norm_num [vb_step_flags, lbStep, lbC2]
  rw [f2, if_neg (by simp)]
  show (vb_loop (lbStep lbC2) 1 4 (1/100) true (0+1) 3 3 (lbC2 2)).2.1 = 3
  rw [vb_loop_succ]
  have f3 : vb_step_flags 1 4 (1/100) true 3 (lbC2 2) ((lbStep lbC2 3).2) =
      ([VireoWarning.notConverged], false) := by
    norm_num [vb_step_flags, lbStep, lbC2]
  rw [f3, if_neg (by simp)]
  rfl

/-- Witness for `C2_amended` at the concrete run `lbC2`, `min_iter = 1`,
`max_iter = 4`: the decrease at iteration 2 and the exhaustion at
iteration 3 both produce their warnings under `verbose = True`, and no
warning is produced under `verbose = False`. -/
theorem C2_witness :
    VireoWarning.lbDecrease ∈ (lb_loop lbC2 1 4 (1/100) true).2.2 ∧
    VireoWarning.notConverged ∈ (lb_loop lbC2 1 4 (1/100) true).2.2 ∧
    (lb_loop lbC2 1 4 (1/100) false).2.2 = [] :=
  ⟨(C2_amended lbC2 1 4 (1/100) 2).1 (by norm_num) (by rw [lbC2_stop]; norm_num)
      (by norm_num [lbC2]),
   (C2_amended lbC2 1 4 (1/100) 2).2.1 (by norm_num) (by rw [lbC2_stop])
      (by norm_num [lbC2]),
   (C2_amended lbC2 1 4 (1/100) 2).2.2⟩

/-! ### Ordered donor pairs (`add_doublet_GT`, vireo_model.py line 245)

`db_idx = np.array(list(permutations(range(n), 2)))`: all ordered pairs of
distinct donors, in itertools order (first component ascending, then the
second ascending skipping the diagonal). -/

/-- The list `permutations(range(n), 2)` in itertools order. -/
def perm2 (n : ℕ) : List (ℕ × ℕ) :=
  (List.range n).flatMap
    (fun i => ((List.range n).filter (fun j => decide (j ≠ i))).map (fun j => (i, j)))

lemma length_filter_ne (n i : ℕ) (h : i < n) :
    ((List.range n).filter (fun j => decide (j ≠ i))).length = n - 1 := by
  induction n with
  | zero => omega
  | succ m ih =>
    rw [List.range_succ, List.filter_append]
    rcases Nat.lt_succ_iff_lt_or_eq.mp h with h' | h'
    · rw [List.length_append, ih h']
      have : List.filter (fun j => decide (j ≠ i)) [m] = [m] := by
        simp [List.filter, Nat.ne_of_gt h']
      rw [this]
      simp
      omega
    · subst h'
      have h1 : (List.range i).filter (fun j => decide (j ≠ i)) = List.range i :=
        List.filter_eq_self.mpr
          (fun j hj => by simp [Nat.ne_of_lt (List.mem_range.mp hj)])
      have h2 : List.filter (fun j => decide (j ≠ i)) [i] = [] := by simp
      rw [List.length_append, h1, h2]
      simp

/-- The augmented hypothesis space has `n * (n - 1)` ordered donor pairs. -/
lemma perm2_length (n : ℕ) : (perm2 n).length = n * (n - 1) := by
  unfold perm2
  rw [List.flatMap_def, List.length_flatten, List.map_map]
  have hmap : (List.range n).map
      (List.length ∘ fun i =>
        ((List.range n).filter (fun j => decide (j ≠ i))).map (fun j => (i, j))) =
      (List.range n).map (fun _ => n - 1) := by
    apply List.map_congr_left
    intro i hi
    simp only [Function.comp_apply, List.length_map]
    exact length_filter_ne n i (List.mem_range.mp hi)
  rw [hmap, List.map_const', List.sum_replicate, List.length_range, smul_eq_mul]

lemma perm2_mem {n : ℕ} {p : ℕ × ℕ} (h : p ∈ perm2 n) :
    p.1 < n ∧ p.2 < n ∧ p.1 ≠ p.2 := by
  unfold perm2 at h
  simp only [List.mem_flatMap, List.mem_map, List.mem_filter, List.mem_range,
    decide_eq_true_eq] at h
  obtain ⟨i, hi, j, ⟨hj, hne⟩, rfl⟩ := h
  exact ⟨hi, hj, Ne.symm hne⟩

/-! ### Claim C3: the augmented mixing vector `Psi_both`
(`update_VB`, vireo_model.py lines 191-197) -/

/-- `doublet_prior = 1 - GT_prob.shape[2] / GT_both.shape[2]` when the
caller passes `None`, where `GT_both` has `n + n*(n-1)` donor columns
(singles plus ordered pairs appended by `add_doublet_GT`). -/
def resolve_doublet_prior (n : ℕ) : Option ℚ → ℚ
  | none => 1 - (n : ℚ) / ((n : ℚ) + ((perm2 n).length : ℚ))
  | some d => d

/-- `Psi_both = np.ones(GT_both.shape[2]) * doublet_prior` followed by
`Psi_both[:n] = Psi * (1 - doublet_prior)`: the first `n` entries carry the
rescaled singlet weights, and *every* pair slot carries the whole doublet
prior. -/
def Psi_both_def (Psi : ℕ → ℚ) (n : ℕ) (dp : ℚ) : ℕ → ℚ :=
  fun k => if k < n then Psi k * (1 - dp) else dp

lemma sum_range_split (f : ℕ → ℚ) (n : ℕ) :
    ∀ p, ∑ k ∈ Finset.range (n + p), f k =
      (∑ k ∈ Finset.range n, f k) + ∑ j ∈ Finset.range p, f (n + j) := by
  intro p
  induction p with
  | zero => simp
  | succ p ih =>
    rw [show n + (p + 1) = (n + p) + 1 by omega, Finset.sum_range_succ, ih,
      Finset.sum_range_succ]
    ring

/-- Claim C3 is false as stated: for `n = 2` donors with the uniform
`Psi = (1/2, 1/2)` and the default doublet prior
`1 - 2/4 = 1/2`, the augmented mixing vector `Psi_both` over the
2 singles + 2 ordered pairs sums to `3/2`, not 1. -/
theorem C3_counterexample :
    (∑ k ∈ Finset.range (2 + (perm2 2).length),
        Psi_both_def (fun _ => (1:ℚ)/2) 2 (resolve_doublet_prior 2 none) k) = 3/2 ∧
      (3/2 : ℚ) ≠ 1 := by
  constructor
  · have hl : (perm2 2).length = 2 := rfl
    rw [hl]
    rw [show (2 + 2 : ℕ) = 4 from rfl]
    rw [Finset.sum_range_succ, Finset.sum_range_succ, Finset.sum_range_succ,
      Finset.sum_range_succ, Finset.sum_range_zero]
    norm_num [Psi_both_def, resolve_doublet_prior, hl]
  · norm_num

/-- Claim C3, amended: whenever the singlet weights `Psi` sum to 1 (as
they do after `vireo_core`'s initialization), the augmented vector
`Psi_both` sums to `(1 - doublet_prior) + n*(n-1) * doublet_prior`: each
of the `n*(n-1)` ordered-pair slots receives the whole doublet prior, so
the vector sums to 1 only in degenerate cases, not in general. -/
theorem C3_amended (n : ℕ) (Psi : ℕ → ℚ) (dp : ℚ)
    (hPsi : ∑ k ∈ Finset.range n, Psi k = 1) :
    ∑ k ∈ Finset.range (n + (perm2 n).length), Psi_both_def Psi n dp k =
      (1 - dp) + ((perm2 n).length : ℚ) * dp := by
  rw [sum_range_split]
  have h1 : ∑ k ∈ Finset.range n, Psi_both_def Psi n dp k =
      ∑ k ∈ Finset.range n, Psi k * (1 - dp) := by
    apply Finset.sum_congr rfl
    intro k hk
    exact if_pos (Finset.mem_range.mp hk)
  have h2 : ∑ j ∈ Finset.range ((perm2 n).length), Psi_both_def Psi n dp (n + j) =
      ∑ _j ∈ Finset.range ((perm2 n).length), dp := by
    apply Finset.sum_congr rfl
    intro j _
    exact if_neg (by omega)
  rw [h1, h2, ← Finset.sum_mul, hPsi, Finset.sum_const, Finset.card_range,
    nsmul_eq_mul]
  ring

/-- Witness for `C3_amended`: the `n = 2` uniform case: the sum of
`Psi_both` equals `(1 - 1/2) + 2 * (1/2) = 3/2`. -/
theorem C3_witness :
    ∑ k ∈ Finset.range (2 + (perm2 2).length),
        Psi_both_def (fun _ => (1:ℚ)/2) 2 (resolve_doublet_prior 2 none) k =
      (1 - resolve_doublet_prior 2 none) +
        ((perm2 2).length : ℚ) * resolve_doublet_prior 2 none :=
  C3_amended 2 (fun _ => (1:ℚ)/2) (resolve_doublet_prior 2 none)
    (by rw [Finset.sum_range_succ, Finset.sum_range_succ, Finset.sum_range_zero]; norm_num)

/-! ### Claim C4: shape of `doublet_prob` when doublet checking is
disabled (vireo_model.py lines 167-170) -/

/-- `n_donor_doublt = int(n_donor * (n_donor - 1) / 2)`: the unordered
pair count used for the disabled-branch zero matrix. -/
def n_donor_doublt (n : ℕ) : ℕ := n * (n - 1) / 2

/-- `doublet_prob = np.zeros((ID_prob.shape[0], n_donor_doublt))`:
(row count, column count, entries). -/
def doublet_prob_disabled (n_cells n_donor : ℕ) : ℕ × ℕ × (ℕ → ℕ → ℚ) :=
  (n_cells, n_donor_doublt n_donor, fun _ _ => 0)

/-- Claim C4 is false as stated: for `n_donor = 2` the disabled-branch
zero matrix has `2*1/2 = 1` column, while the doublet augmentation used
when checking is enabled produces `2` ordered pairs. -/
theorem C4_counterexample :
    (doublet_prob_disabled 3 2).2.1 = 1 ∧ (perm2 2).length = 2 ∧ (1 : ℕ) ≠ 2 := by
  refine ⟨rfl, rfl, by norm_num⟩

/-- Claim C4, amended: when doublet checking is disabled `doublet_prob`
is indeed an all-zero matrix, but with `⌊n(n-1)/2⌋` columns — the
*unordered* pair count — whereas the augmented hypothesis space of the
enabled branch has `n(n-1)` ordered pairs; the two column counts disagree
for every `n ≥ 2`. -/
theorem C4_amended (n_cells n : ℕ) :
    (doublet_prob_disabled n_cells n).2.1 = n * (n - 1) / 2 ∧
    (∀ i j, (doublet_prob_disabled n_cells n).2.2 i j = 0) ∧
    (perm2 n).length = n * (n - 1) ∧
    (2 ≤ n → (doublet_prob_disabled n_cells n).2.1 ≠ (perm2 n).length) := by
  refine ⟨rfl, fun i j => rfl, perm2_length n, fun hn => ?_⟩
  show n * (n - 1) / 2 ≠ (perm2 n).length
  rw [perm2_length n]
  have hpos : 0 < n * (n - 1) := Nat.mul_pos (by omega) (by omega)
  exact Nat.ne_of_lt (Nat.div_lt_self hpos (by norm_num))

/-- Witness for `C4_amended` at `n_cells = 3`, `n = 2`: one column versus
two ordered pairs. -/
theorem C4_witness : (doublet_prob_disabled 3 2).2.1 ≠ (perm2 2).length :=
  (C4_amended 3 2).2.2.2 (by norm_num)

/-! ### Claim C5: `add_doublet_GT` (vireo_model.py lines 240-265) -/

/-- Sum of the three genotype-state probabilities of one (variant, donor). -/
def sum3 (f : ℕ → ℚ) : ℚ := f 0 + f 1 + f 2

/-- Sum of the five combined-category probabilities of one
(variant, pair). -/
def sum5 (f : ℕ → ℚ) : ℚ := f 0 + f 1 + f 2 + f 3 + f 4

/-- The un-normalized five combined categories for the ordered pair
`(i, j)` at variant `v`, embedding vireo_model.py lines 252-260:
category 0 = ref·ref, 1 = ref·alt + het·het + alt·ref, 2 = alt·alt,
3 = ref·het + het·ref, 4 = het·alt + alt·het. -/
def GT_pair_raw (G : ℕ → ℕ → ℕ → ℚ) (i j v : ℕ) : ℕ → ℚ
  | 0 => G v 0 i * G v 0 j
  | 1 => G v 0 i * G v 2 j + G v 1 i * G v 1 j + G v 2 i * G v 0 j
  | 2 => G v 2 i * G v 2 j
  | 3 => G v 0 i * G v 1 j + G v 1 i * G v 0 j
  | 4 => G v 1 i * G v 2 j + G v 2 i * G v 1 j
  | _ => 0

/-- `add_doublet_GT`: the first `n` donor columns keep their three
genotype probabilities padded with two zero categories
(`np.append(GT_prob, np.zeros(...), axis=1)`); column `n + k` holds the
pair `perm2 n !! k`'s five categories normalized over the category axis
(`tensor_normalize(GT_prob2, axis=1)`).

Modelled from the spec: `tensor_normalize` lives in `vireo_base.py`,
which is out of scope; per spec §4.1 it divides each slice along the
axis by the slice's sum (zero-sum slices are left unspecified there; this
model maps them to 0, a choice the theorems below never rely on). -/
def add_doublet_GT (G : ℕ → ℕ → ℕ → ℚ) (n : ℕ) (v c k : ℕ) : ℚ :=
  if k < n then (if c < 3 then G v c k else 0)
  else
    let pr := (perm2 n).getD (k - n) (0, 0)
    let s := sum5 (GT_pair_raw G pr.1 pr.2 v)
    if s = 0 then 0 else GT_pair_raw G pr.1 pr.2 v c / s

/-- All nine products `G v g i * G v g' j` are covered exactly once by the
five combined categories: their total is the product of the two donors'
three-state totals. -/
lemma GT_pair_raw_sum (G : ℕ → ℕ → ℕ → ℚ) (i j v : ℕ) :
    sum5 (GT_pair_raw G i j v) =
      sum3 (fun g => G v g i) * sum3 (fun g => G v g j) := by
  simp only [sum5, sum3, GT_pair_raw]
  ring

/-- Claim C5: if every donor's three genotype probabilities sum to 1 at
variant `v`, then each ordered pair's five raw categories cover the nine
state combinations exactly once (their sum is the product of the two
three-state totals), and after normalization the five categories of every
pair column of `add_doublet_GT` sum to 1. -/
theorem C5_theorem (G : ℕ → ℕ → ℕ → ℚ) (n v k : ℕ)
    (hsum : ∀ d, d < n → sum3 (fun g => G v g d) = 1)
    (hk : k < (perm2 n).length) :
    sum5 (fun c => add_doublet_GT G n v c (n + k)) = 1 ∧
    sum5 (GT_pair_raw G ((perm2 n).getD k (0, 0)).1 ((perm2 n).getD k (0, 0)).2 v) =
      sum3 (fun g => G v g ((perm2 n).getD k (0, 0)).1) *
        sum3 (fun g => G v g ((perm2 n).getD k (0, 0)).2) := by
  have hmem : (perm2 n).getD k (0, 0) ∈ perm2 n := by
    rw [List.getD_eq_getElem (perm2 n) (0, 0) hk]
    exact List.getElem_mem hk
  obtain ⟨hi, hj, _⟩ := perm2_mem hmem
  have hraw : sum5 (GT_pair_raw G ((perm2 n).getD k (0, 0)).1
      ((perm2 n).getD k (0, 0)).2 v) = 1 := by
    rw [GT_pair_raw_sum, hsum _ hi, hsum _ hj, one_mul]
  refine ⟨?_, GT_pair_raw_sum G _ _ v⟩
  have hnk : ¬ (n + k < n) := by omega
  have hsub : n + k - n = k := by omega
  simp only [add_doublet_GT, hnk, if_false, hsub]
  rw [hraw]
  have h10 : ((1:ℚ) = 0) = False := by norm_num
  simp only [h10, if_false, div_one]
  exact hraw

/-- Uniform genotype probabilities for the `C5_theorem` witness. -/
def G5W : ℕ → ℕ → ℕ → ℚ := fun _ _ _ => 1/3

/-- Witness for `C5_theorem`: two uniform donors, the first ordered pair. -/
theorem C5_witness :
    sum5 (fun c => add_doublet_GT G5W 2 0 c (2 + 0)) = 1 ∧
    sum5 (GT_pair_raw G5W ((perm2 2).getD 0 (0, 0)).1 ((perm2 2).getD 0 (0, 0)).2 0) =
      sum3 (fun g => G5W 0 g ((perm2 2).getD 0 (0, 0)).1) *
        sum3 (fun g => G5W 0 g ((perm2 2).getD 0 (0, 0)).2) :=
  C5_theorem G5W 2 0 0 (fun d _ => by norm_num [sum3, G5W]) (by decide)

/-! ### Claim C6: `add_doublet_theta` (vireo_model.py lines 220-237)

Beta shape parameters are a (3 × 2) array; the two appended "mixed" rows
involve `np.sqrt`, so this part is modelled over `ℝ`. -/

/-- Modelled from the spec: the row slice of `tensor_normalize(·, axis=1)`
from `vireo_base.py` (out of scope): each row entry divided by the row
sum (division by a zero sum is `ℝ`'s junk value 0; the theorem below
assumes positive row sums, so the policy is never exercised). -/
noncomputable def row_normalize (th : ℕ → ℕ → ℝ) (r c : ℕ) : ℝ :=
  th r c / (th r 0 + th r 1)

/-- `add_doublet_theta`: rows 0-2 are the input rows
(`np.append(theta_shapes, theta_shapes2, axis=0)`); row `3 + ii`
(`ii ∈ {0, 1}`) is `theta_mean * shape_sum` where `theta_mean` is the
entrywise mean of the row-normalized rows `ii, ii+1` and `shape_sum` is
`sqrt(sum(row ii) * sum(row ii+1))`.  Only rows `< 5` correspond to the
(5 × 2) numpy result. -/
noncomputable def add_doublet_theta (th : ℕ → ℕ → ℝ) (r c : ℕ) : ℝ :=
  if r < 3 then th r c
  else
    ((row_normalize th (r - 3) c + row_normalize th (r - 3 + 1) c) / 2) *
      Real.sqrt ((th (r - 3) 0 + th (r - 3) 1) * ((th (r - 3 + 1) 0 + th (r - 3 + 1) 1)))

/-- Claim C6: with positive row sums, `add_doublet_theta` leaves the three
original rows unchanged, each mixed row `3 + k` is the mean of the two
adjacent rows' normalized entries scaled by the square root of the product
of their sums, and consequently each mixed row's total pseudo-count is the
geometric mean of the two adjacent rows' totals. -/
theorem C6_theorem (th : ℕ → ℕ → ℝ) (hpos : ∀ r, r < 3 → 0 < th r 0 + th r 1) :
    (∀ r, r < 3 → ∀ c, add_doublet_theta th r c = th r c) ∧
    (∀ k, k < 2 → ∀ c, add_doublet_theta th (3 + k) c =
      ((th k c / (th k 0 + th k 1) + th (k+1) c / (th (k+1) 0 + th (k+1) 1)) / 2) *
        Real.sqrt ((th k 0 + th k 1) * (th (k+1) 0 + th (k+1) 1))) ∧
    (∀ k, k < 2 → add_doublet_theta th (3 + k) 0 + add_doublet_theta th (3 + k) 1 =
      Real.sqrt ((th k 0 + th k 1) * (th (k+1) 0 + th (k+1) 1))) := by
  have hrow : ∀ k c, add_doublet_theta th (3 + k) c =
      ((th k c / (th k 0 + th k 1) + th (k+1) c / (th (k+1) 0 + th (k+1) 1)) / 2) *
        Real.sqrt ((th k 0 + th k 1) * (th (k+1) 0 + th (k+1) 1)) := by
    intro k c
    have h3 : ¬ (3 + k < 3) := by omega
    have hsub : 3 + k - 3 = k := by omega
    simp only [add_doublet_theta, h3, if_false, hsub, row_normalize]
  refine ⟨fun r hr c => by simp only [add_doublet_theta, if_pos hr], fun k hk c => hrow k c,
    fun k hk => ?_⟩
  have hk0 : (0:ℝ) < th k 0 + th k 1 := hpos k (by omega)
  have hk1 : (0:ℝ) < th (k+1) 0 + th (k+1) 1 := hpos (k+1) (by omega)
  rw [hrow k 0, hrow k 1]
  have hmean : (th k 0 / (th k 0 + th k 1) + th (k+1) 0 / (th (k+1) 0 + th (k+1) 1)) / 2 +
      (th k 1 / (th k 0 + th k 1) + th (k+1) 1 / (th (k+1) 0 + th (k+1) 1)) / 2 = 1 := by
    field_simp
    ring
  rw [← add_mul, hmean, one_mul]

/-- Constant Beta-shape array for the `C6_theorem` witness. -/
noncomputable def thW : ℕ → ℕ → ℝ := fun _ _ => 1

/-- Witness for `C6_theorem` on the all-ones (3 × 2) shape array
(all row sums are 2 > 0). -/
theorem C6_witness :
    (∀ r, r < 3 → ∀ c, add_doublet_theta thW r c = thW r c) ∧
    (∀ k, k < 2 → ∀ c, add_doublet_theta thW (3 + k) c =
      ((thW k c / (thW k 0 + thW k 1) + thW (k+1) c / (thW (k+1) 0 + thW (k+1) 1)) / 2) *
        Real.sqrt ((thW k 0 + thW k 1) * (thW (k+1) 0 + thW (k+1) 1))) ∧
    (∀ k, k < 2 → add_doublet_theta thW (3 + k) 0 + add_doublet_theta thW (3 + k) 1 =
      Real.sqrt ((thW k 0 + thW k 1) * (thW (k+1) 0 + thW (k+1) 1))) :=
  C6_theorem thW (fun r _ => by norm_num [thW])

/-! ### Claim C7: the learn-flag gating of `update_VB` and `vireo_core`
(vireo_model.py lines 142-170 and 182-217)

The numeric engines `get_ID_prob`, `get_GT_prob`, `get_theta_shapes` and
`VB_lower_bound` live in `vireo_base.py` (out of scope) and are kept
opaque: the record below holds them as parameters, with `AD`, `DP`,
`GT_prior` and `theta_prior` baked into their closures.  What is embedded
faithfully is the data flow of `update_VB` and `vireo_core` around them. -/

/-- Opaque numeric engines over genotype tensors `G`, theta arrays `T`
and identity-probability matrices `I`:
`get_ID_prob(GT_both, theta_both, Psi_both) = (ID_prob2, logLik_ID)`;
`get_GT_prob(ID_prob, theta_shapes)`;
`get_theta_shapes(ID_prob, GT_prob, theta_shapes)`;
`lower_bound(logLik_ID, GT_prob, ID_prob2, theta_shapes, Psi_both)`;
`restrict` is the column slice `ID_prob2[:, :GT_prob.shape[2]]` and
`dblt_cols` the complementary slice `[:, n_donor:]`;
`augGT`/`augTH` are `add_doublet_GT`/`add_doublet_theta` on the opaque
representations and `nG` is `GT_prob.shape[2]`. -/
structure VBEngines (G T I : Type) where
  get_ID_prob : G → T → (ℕ → ℚ) → I × ℚ
  get_GT_prob : I → T → G
  get_theta_shapes : I → G → T → T
  lower_bound : ℚ → G → I → T → (ℕ → ℚ) → ℚ
  restrict : I → I
  dblt_cols : I → I
  augGT : G → G
  augTH : T → T
  nG : ℕ

/-- `update_VB` (vireo_model.py lines 182-217): build the (possibly
doublet-augmented) hypothesis space, compute assignment probabilities,
then update the genotype posterior only if `learn_GT` and the theta
shapes only if `learn_theta`, and finally the lower bound.  Returns
`(ID_prob2, GT_prob, theta_shapes, LB_val)`. -/
def update_VB {G T I : Type} (E : VBEngines G T I) (gt : G) (th : T)
    (Psi : ℕ → ℚ) (dp0 : Option ℚ)
    (learn_GT learn_theta check_doublet : Bool) : I × G × T × ℚ :=
  let GT_both := if check_doublet then E.augGT gt else gt
  let theta_both := if check_doublet then E.augTH th else th
  let Psi_both := if check_doublet then
      Psi_both_def Psi E.nG (resolve_doublet_prior E.nG dp0)
    else Psi
  let idll := E.get_ID_prob GT_both theta_both Psi_both
  let ID_prob := E.restrict idll.1
  let gt1 := if learn_GT then E.get_GT_prob ID_prob th else gt
  let th1 := if learn_theta then E.get_theta_shapes ID_prob gt1 th else th
  let lbv := E.lower_bound idll.2 gt1 idll.1 th1 Psi_both
  (idll.1, gt1, th1, lbv)

/-- One iteration of `vireo_core`'s fixed-point loop (line 145):
`update_VB(..., learn_GT=learn_GT, learn_theta=learn_theta,
check_doublet=False)` threaded through the `(ID_prob, GT_prob,
theta_shapes)` state, producing the iteration's lower bound. -/
def core_step {G T I : Type} (E : VBEngines G T I) (Psi : ℕ → ℚ) (dp0 : Option ℚ)
    (learn_GT learn_theta : Bool) : I × G × T → (I × G × T) × ℚ :=
  fun st =>
    let r := update_VB E st.2.1 st.2.2 Psi dp0 learn_GT learn_theta false
    ((r.1, r.2.1, r.2.2.1), r.2.2.2)

/-- The result record of `vireo_core` (vireo_model.py lines 172-179),
restricted to the fields the claims are about.  In the disabled branch
`doublet_prob` is the zero matrix `doublet_prob_disabled` (see C4),
represented here by `none`. -/
structure CoreRV (G T I : Type) where
  ID_prob : I
  GT_prob : G
  theta_shapes : T
  doublet_prob : Option I
  stop_it : ℕ
  warnings : List VireoWarning
  LB_doublet : Option ℚ

/-- `vireo_core` (vireo_model.py lines 142-179) after initialization:
run the fixed-point loop with the caller's learn flags and
`check_doublet=False`; then, if `check_doublet` is set, run one more
`update_VB` with `learn_GT=True, learn_theta=True, check_doublet=True`
(the flags are hard-coded at lines 161-163) and split the assignment
columns; otherwise keep the loop state and no doublet lower bound. -/
def vireo_core_model {G T I : Type} (E : VBEngines G T I) (gt0 : G) (th0 : T)
    (id0 : I) (Psi : ℕ → ℚ) (dp0 : Option ℚ)
    (learn_GT learn_theta check_doublet : Bool)
    (min_iter max_iter : ℕ) (eps : ℚ) (verbose : Bool) : CoreRV G T I :=
  let lr := vireo_loop (core_step E Psi dp0 learn_GT learn_theta) (id0, gt0, th0)
    min_iter max_iter eps verbose
  if check_doublet then
    let r := update_VB E lr.1.2.1 lr.1.2.2 Psi dp0 true true true
    ⟨E.restrict r.1, r.2.1, r.2.2.1, some (E.dblt_cols r.1), lr.2.1, lr.2.2, some r.2.2.2⟩
  else
    ⟨lr.1.1, lr.1.2.1, lr.1.2.2, none, lr.2.1, lr.2.2, none⟩

/-- Engines whose genotype update always returns 42 and whose theta
update always returns 7, over `G = T = I = ℚ`, with `gt0 = 0`, `th0 = 1`:
used to exhibit the hard-coded learn flags of the doublet pass. -/
def EW : VBEngines ℚ ℚ ℚ :=
  ⟨fun _ _ _ => (0, 0), fun _ _ => 42, fun _ _ _ => 7, fun _ _ _ _ _ => 0,
   id, id, id, id, 2⟩

/-- Claim C7 is false as stated: with `learn_GT = learn_theta = False`
(and a caller-provided genotype posterior `gt0 = 0`, theta `th0 = 1`),
the run with `check_doublet = True` returns `GT_prob = 42` and
`theta_shapes = 7`: the final doublet-inclusive pass updated both even
though the flags asked for them to be held fixed. -/
theorem C7_counterexample :
    (vireo_core_model EW 0 1 0 (fun _ => 1/2) none false false true 1 3 (1/100)
        false).GT_prob = 42 ∧
    (vireo_core_model EW 0 1 0 (fun _ => 1/2) none false false true 1 3 (1/100)
        false).theta_shapes = 7 ∧
    (42 : ℚ) ≠ 0 ∧ (7 : ℚ) ≠ 1 :=
  ⟨rfl, rfl, by norm_num, by norm_num⟩

/-- Claim C7, amended: the learn flags gate every iteration of the
fixed-point loop (with `learn_GT=False` the genotype posterior, and with
`learn_theta=False` the theta shapes, are returned unchanged when doublet
checking is off), but the final doublet-inclusive pass ignores them: it
always runs `update_VB` with `learn_GT=True, learn_theta=True`, applied
to the loop's (held-fixed) state. -/
theorem C7_amended {G T I : Type} (E : VBEngines G T I) (gt0 : G) (th0 : T)
    (id0 : I) (Psi : ℕ → ℚ) (dp0 : Option ℚ) (lg lt : Bool)
    (min_iter max_iter : ℕ) (eps : ℚ) (v : Bool) :
    (lg = false →
      (vireo_core_model E gt0 th0 id0 Psi dp0 lg lt false min_iter max_iter eps
        v).GT_prob = gt0) ∧
    (lt = false →
      (vireo_core_model E gt0 th0 id0 Psi dp0 lg lt false min_iter max_iter eps
        v).theta_shapes = th0) ∧
    ((vireo_core_model E gt0 th0 id0 Psi dp0 false false true min_iter max_iter eps
        v).GT_prob = (update_VB E gt0 th0 Psi dp0 true true true).2.1 ∧
     (vireo_core_model E gt0 th0 id0 Psi dp0 false false true min_iter max_iter eps
        v).theta_shapes = (update_VB E gt0 th0 Psi dp0 true true true).2.2.1) := by
  refine ⟨?_, ?_, ?_⟩
  · intro hlg
    subst hlg
    have hinv := vb_loop_state_inv (core_step E Psi dp0 false lt) min_iter max_iter
      eps v (fun st => st.2.1 = gt0) (fun s hs => hs) max_iter 0 (id0, gt0, th0) 0 rfl
    exact hinv
  · intro hlt
    subst hlt
    have hinv := vb_loop_state_inv (core_step E Psi dp0 lg false) min_iter max_iter
      eps v (fun st => st.2.2 = th0) (fun s hs => hs) max_iter 0 (id0, gt0, th0) 0 rfl
    exact hinv
  · have hinv := vb_loop_state_inv (core_step E Psi dp0 false false) min_iter max_iter
      eps v (fun st => st.2.1 = gt0 ∧ st.2.2 = th0) (fun s hs => hs) max_iter 0
      (id0, gt0, th0) 0 ⟨rfl, rfl⟩
    show (vireo_core_model E gt0 th0 id0 Psi dp0 false false true min_iter max_iter
        eps v).GT_prob = _ ∧ _
    simp only [vireo_core_model, vireo_loop, if_pos]
    rw [hinv.1, hinv.2]
    exact ⟨rfl, rfl⟩

/-- Witness for `C7_amended` on the concrete engines `EW`: with both
learn flags off and doublet checking off, the returned genotype posterior
and theta shapes are the caller's `0` and `1`. -/
theorem C7_witness :
    (vireo_core_model EW 0 1 0 (fun _ => 1/2) none false false false 1 3 (1/100)
        false).GT_prob = 0 ∧
    (vireo_core_model EW 0 1 0 (fun _ => 1/2) none false false false 1 3 (1/100)
        false).theta_shapes = 1 :=
  ⟨(C7_amended EW 0 1 0 (fun _ => 1/2) none false false 1 3 (1/100) false).1 rfl,
   (C7_amended EW 0 1 0 (fun _ => 1/2) none false false 1 3 (1/100) false).2.1 rfl⟩

/-! ### Claim C8: resolving `n_donor` (vireo_model.py lines 89-94) -/

/-- How a run of `vireo_core` can abort during initialization: the
explicit diagnostic path (`print(...)` followed by `sys.exit(1)`), or an
uncaught Python `AttributeError` (accessing `.shape` on `None`). -/
inductive PyAbort where
  | sysExit : ℕ → String → PyAbort
  | attrError : PyAbort
deriving DecidableEq, Repr

/-- Lines 89-94 of `vireo_core`: if `n_donor is None`, consult
`GT_prior.shape` — which raises `AttributeError` when `GT_prior` is also
`None` — and exit with the printed diagnostic when the prior has fewer
than 3 axes or fewer than 2 donors on axis 2; otherwise take the donor
count from the prior.  `GT_prior` is modelled by its shape tuple. -/
def resolve_n_donor : Option ℕ → Option (List ℕ) → Except PyAbort ℕ
  | some n, _ => Except.ok n
  | none, none => Except.error PyAbort.attrError
  | none, some dims =>
    if dims.length < 3 ∨ dims.getD 2 0 < 2 then
      Except.error (PyAbort.sysExit 1 "Error: no n_donor and GT_prior has < 2 donors.")
    else Except.ok (dims.getD 2 0)

/-- Claim C8 is false as stated: with both `n_donor` and `GT_prior`
absent the run does abort, but through an uncaught `AttributeError`, not
through the clear printed diagnostic used when `GT_prior` is present with
too few donors. -/
theorem C8_counterexample :
    resolve_n_donor none none = Except.error PyAbort.attrError ∧
    (Except.error PyAbort.attrError : Except PyAbort ℕ) ≠
      Except.error (PyAbort.sysExit 1
        "Error: no n_donor and GT_prior has < 2 donors.") := by
  refine ⟨rfl, by simp⟩

/-- Claim C8, amended: with `n_donor` absent, a `GT_prior` that fails to
provide at least 2 donors on its third axis aborts before iterating with
the printed diagnostic and exit code 1; when `GT_prior` is absent as well
the run still aborts before iterating, but via an uncaught
`AttributeError` instead of the diagnostic. -/
theorem C8_amended (dims : List ℕ)
    (h : dims.length < 3 ∨ dims.getD 2 0 < 2) :
    resolve_n_donor none (some dims) =
      Except.error (PyAbort.sysExit 1
        "Error: no n_donor and GT_prior has < 2 donors.") ∧
    resolve_n_donor none none = Except.error PyAbort.attrError :=
  ⟨by simp only [resolve_n_donor, if_pos h], rfl⟩

/-- Witness for `C8_amended`: the empty shape tuple. -/
theorem C8_witness :
    resolve_n_donor none (some []) =
      Except.error (PyAbort.sysExit 1
        "Error: no n_donor and GT_prior has < 2 donors.") ∧
    resolve_n_donor none none = Except.error PyAbort.attrError :=
  C8_amended [] (by norm_num)

/-! ### Claim C9: `parse_donor_GPb` tag validation
(vcf_utils.py lines 222-250) -/

/-- What a call to `parse_donor_GPb` does: abort the run, or return a
value (possibly `None`) to the caller. -/
inductive ParseOutcome (A : Type) where
  | abort : ParseOutcome A
  | ret : Option A → ParseOutcome A
deriving DecidableEq, Repr

/-- `parse_donor_GPb(GT_dat, tag)`: if `['GT', 'GP', 'PL'].count(tag) == 0`
it prints `"[parse_donor_GPb] Error: no support tag: ..."` and returns
`None` to the caller; otherwise it fills the (variant × 3 × donor) tensor
entry-wise with `parse_GT_code(GT_dat[i][j], tag)`.  The per-code numeric
kernel `parse_GT_code` (float powers for `PL`) is kept opaque as the
parameter `parse_GT_code`. -/
def parse_donor_GPb {A : Type} (parse_GT_code : String → String → A)
    (GT_dat : List (List String)) (tag : String) : ParseOutcome (List (List A)) :=
  if (["GT", "GP", "PL"].count tag) = 0 then ParseOutcome.ret none
  else ParseOutcome.ret
    (some (GT_dat.map (fun row => row.map (fun code => parse_GT_code code tag))))

/-- Claim C9 is false as stated: requesting the unsupported tag `"XX"`
does not abort the run; the function returns `None` to the caller. -/
theorem C9_counterexample :
    parse_donor_GPb (fun _ _ => (0:ℚ)) [] "XX" = ParseOutcome.ret none ∧
    parse_donor_GPb (fun _ _ => (0:ℚ)) [] "XX" ≠ ParseOutcome.abort := by
  refine ⟨rfl, by simp [parse_donor_GPb]⟩

/-- Claim C9, amended: an unsupported genotype-encoding tag makes
`parse_donor_GPb` print an error message and return `None` to the caller;
execution continues — the function never aborts the run. -/
theorem C9_amended {A : Type} (parse_GT_code : String → String → A)
    (GT_dat : List (List String)) (tag : String)
    (h : tag ∉ (["GT", "GP", "PL"] : List String)) :
    parse_donor_GPb parse_GT_code GT_dat tag = ParseOutcome.ret none := by
  unfold parse_donor_GPb
  rw [if_pos (List.count_eq_zero.mpr h)]

/-- Witness for `C9_amended` at the tag `"XX"`. -/
theorem C9_witness :
    parse_donor_GPb (fun _ _ => (0:ℚ)) [["0/0"]] "XX" = ParseOutcome.ret none :=
  C9_amended (fun _ _ => (0:ℚ)) [["0/0"]] "XX" (by decide)

/-! ### Claim C10: the unused `check_doublet` parameter of `vireo_flock`
(vireo_model.py lines 18-76) -/

/-- The configuration with which `vireo_flock` invokes `vireo_core`
(the arguments it sets explicitly; `AD`, `DP` and `**kwargs` are in the
opaque `core` closure). -/
structure CoreCfg where
  n_donor : ℕ
  min_iter : ℕ
  max_iter : ℕ
  verbose : Bool
  check_doublet : Bool
deriving DecidableEq, Repr

/-- The first-stage restart configuration (lines 46-48):
`min_iter=5, max_iter=10, verbose=False, check_doublet=False`. -/
def run1_cfg (n_donor_run1 : ℕ) : CoreCfg := ⟨n_donor_run1, 5, 10, false, false⟩

/-- The second-stage configuration (lines 68-69): only `n_donor` and the
initial assignment are passed, so `vireo_core`'s own defaults apply:
`min_iter=20, max_iter=200, verbose=False, check_doublet=True`. -/
def run2_cfg (n_donor : ℕ) : CoreCfg := ⟨n_donor, 20, 200, false, true⟩

/-- `np.argmax` over final lower bounds: the first result attaining the
maximum (`none` on an empty list, where numpy would raise). -/
def argmax_first {R : Type} (f : R → ℚ) : List R → Option R
  | [] => none
  | x :: xs => some (xs.foldl (fun b y => if f b < f y then y else b) x)

/-- `vireo_flock` (vireo_model.py lines 18-76): `n_init` restarts at the
amplified donor count with the run-1 configuration (each restart's random
initialization is abstracted as its index `i`), selection of the best
final lower bound, then one refinement run at `n_donor` with
`vireo_core`'s default configuration, re-seeded from the best restart
(`refine_seed`).  The `check_doublet` parameter is bound by the signature
(line 19) and never read in the body. -/
def vireo_flock {R : Type} (core : CoreCfg → ℕ → R) (finalLB : R → ℚ)
    (refine_seed : R → ℕ) (n_donor K_amplify n_init : ℕ)
    (check_doublet : Bool) : Option R :=
  let n_donor_run1 := n_donor * K_amplify
  let result := (List.range n_init).map (fun i => core (run1_cfg n_donor_run1) i)
  (argmax_first finalLB result).map
    (fun res1 => core (run2_cfg n_donor) (refine_seed res1))

/-- Claim C10: `vireo_flock` returns the same result whether its
`check_doublet` argument is `True` or `False`; its first-stage restarts
always run with doublet checking disabled and its second stage always
runs with `vireo_core`'s default (doublet checking enabled). -/
theorem C10_theorem {R : Type} (core : CoreCfg → ℕ → R) (finalLB : R → ℚ)
    (refine_seed : R → ℕ) (n_donor K_amplify n_init : ℕ) (b1 b2 : Bool) :
    vireo_flock core finalLB refine_seed n_donor K_amplify n_init b1 =
      vireo_flock core finalLB refine_seed n_donor K_amplify n_init b2 ∧
    (run1_cfg (n_donor * K_amplify)).check_doublet = false ∧
    (run2_cfg n_donor).check_doublet = true :=
  ⟨rfl, rfl, rfl⟩

end Vireo
